import Mathlib

attribute [local semireducible] Rat.add Rat.sub Rat.mul Rat.inv

/-
Verification development for leapclock.c (mlichvar/leapclock), a leap-second
aware console clock.  The clock-processing core of `main` is embedded
shallowly: the per-iteration loop body (lines 129-183) becomes the pure
function `stepIter` over an explicit `State`, floating-point `double`
arithmetic is modelled by exact rationals, and C integer division/modulus
(truncation toward zero) is modelled by `Int.tdiv`/`Int.tmod`.  The libc
calendar functions used by `get_tai_offset` (gmtime under TZ=posix/UTC,
mktime under TZ=right/UTC) are external collaborators and appear as
parameters.
-/

namespace Leapclock

/-- Model of the C `struct timeval`: whole epoch seconds and sub-second
microseconds. -/
structure Timeval where
  sec : Int
  usec : Int
deriving DecidableEq

/-- The fields of the `adjtimex` reply that `main` reads: the sampled time
`timex.time`, whether `STA_NANO` is set in `timex.status`, and `timex.tick`
(the kernel tick length in microseconds). -/
structure TimexSample where
  time : Timeval
  staNano : Bool
  tick : Int
deriving DecidableEq

/-- Broken-down calendar time: the `struct tm` value produced by `gmtime` and
consumed by `mktime` inside `get_tai_offset`. -/
structure Tm where
  tm_year : Int
  tm_mon : Int
  tm_mday : Int
  tm_hour : Int
  tm_minute : Int
  tm_sec : Int
deriving DecidableEq

/-- `get_tai_offset` (leapclock.c, lines 35-49).  The two calendar
interpretations it obtains from libc by switching the TZ environment variable
are passed as parameters: `gmtimePosixUTC` is `gmtime` under `TZ=posix/UTC`
(the leap-second-free civil breakdown of an epoch instant) and
`mktimeRightUTC` is `mktime` under `TZ=right/UTC` (the leap-second-aware
calendar-to-epoch conversion).  The returned offset is
`mktime(&tm) - utc + 10` with `tm = *gmtime(&utc)`. -/
def get_tai_offset (gmtimePosixUTC : Int → Tm) (mktimeRightUTC : Tm → Int)
    (utc : Int) : Int :=
  mktimeRightUTC (gmtimePosixUTC utc) - utc + 10

/-- `diff_tv` (lines 93-95): the signed difference between two sampled times
in seconds, `(tv1.sec - tv2.sec) + (tv1.usec - tv2.usec) / 1e6`, modelled as
an exact rational. -/
def diff_tv (tv1 tv2 : Timeval) : ℚ :=
  ((tv1.sec - tv2.sec : Int) : ℚ) + ((tv1.usec - tv2.usec : Int) : ℚ) / 1000000

/-- The three-way classification of the delta between consecutive samples
(spec section 4.3). -/
inductive StepClass where
  | NORMAL : StepClass
  | BACKWARD_STEP : StepClass
  | DISCONTINUITY : StepClass
deriving DecidableEq

/-- Classification of a sample delta, from the branch conditions at
lines 138 and 140: `diff > -1.0 && diff < -0.8` is a backward step,
`diff > 1.0 || diff < -1.0` is a discontinuity, anything else is normal. -/
def classify (d : ℚ) : StepClass :=
  if -1 < d ∧ d < -(4/5) then StepClass.BACKWARD_STEP
  else if 1 < d ∨ d < -1 then StepClass.DISCONTINUITY
  else StepClass.NORMAL

/-- The state the loop in `main` carries between iterations: the variables
`last_tv_system`, `tai_offset`, `last_tai_offset`, `leap`, `step`, `slew`,
`tick` and `slew_tick` (lines 99-101).  The flags are 0/1-valued ints in C
and are modelled as booleans. -/
structure State where
  last_tv_system : Timeval
  tai_offset : Int
  last_tai_offset : Int
  leap : Bool
  step : Bool
  slew : Bool
  tick : Int
  slew_tick : Int
deriving DecidableEq

/-- The initial state established at lines 115-118: offsets 0, zero last
sample, all flags clear, tick references 0. -/
def initState : State :=
  { last_tv_system := ⟨0, 0⟩, tai_offset := 0, last_tai_offset := 0,
    leap := false, step := false, slew := false, tick := 0, slew_tick := 0 }

/-- Lines 133-135: the sampled time is `timex.time`, with the sub-second
field divided by 1000 (C integer division) when the kernel reports
nanoseconds (`STA_NANO`). -/
def sampleNormalize (x : TimexSample) : Timeval :=
  if x.staNano then ⟨x.time.sec, Int.tdiv x.time.usec 1000⟩ else x.time

/-- Lines 137-141: classify the delta against the previous sample and update
the flags.  A backward step sets `step = 1, slew = 0`; a discontinuity clears
`step`, `slew` and `leap`; a normal delta changes nothing. -/
def detectStep (s : State) (tv : Timeval) : State :=
  match classify (diff_tv tv s.last_tv_system) with
  | StepClass.BACKWARD_STEP => { s with step := true, slew := false }
  | StepClass.DISCONTINUITY => { s with step := false, slew := false, leap := false }
  | StepClass.NORMAL => s

/-- Lines 146-151: when a step is pending or the whole second changed, the
TAI offset is recomputed at `tv_system.tv_sec + step`, `leap` becomes
`last_tai_offset && tai_offset > last_tai_offset`, the recomputed offset is
recorded, and the pending step is cleared.  `os` is the offset oracle
(`get_tai_offset` composed with the libc calendar functions). -/
def offsetUpdate (os : Int → Int) (s : State) (tv : Timeval) : State :=
  if s.step ∨ s.last_tv_system.sec ≠ tv.sec then
    { s with tai_offset := os (tv.sec + (if s.step then 1 else 0)),
             leap := decide (s.last_tai_offset ≠ 0
               ∧ s.last_tai_offset < os (tv.sec + (if s.step then 1 else 0))),
             last_tai_offset := os (tv.sec + (if s.step then 1 else 0)),
             step := false }
  else s

/-- Line 156-157: the slew engages when `leap` is set and the UTC
seconds-of-day is exactly 0 (`tv_utc.tv_sec % 86400 == 0`, C truncated
modulus). -/
def slewEngage (s : State) (tv0 : Timeval) : State :=
  if s.leap ∧ Int.tmod tv0.sec 86400 = 0 then { s with slew := true } else s

/-- Conversion of a C `double` to an integer type: truncation toward zero,
expressed on an exact rational as truncating division of the numerator by
the denominator. -/
def ratTrunc (q : ℚ) : Int :=
  Int.tdiv q.num (q.den : Int)

/-- Lines 169-172: the borrow loop
`while (usec < 0) { sec--; usec += 1000000; }` in closed form.  For a
negative `usec` the loop runs until the microsecond field is in
`[0, 1000000)`, borrowing from the seconds field each time. -/
def borrow (sec usec : Int) : Timeval :=
  if usec < 0 then ⟨sec + usec / 1000000, usec % 1000000⟩ else ⟨sec, usec⟩

/-- Line 159-160: the slew base tick is lowered to the currently observed
kernel tick when unset (`!slew_tick`) or when the observed tick is smaller. -/
def slewBase (s : State) (xtick : Int) : Int :=
  if s.slew_tick = 0 ∨ xtick < s.slew_tick then xtick else s.slew_tick

/-- The UTC time of day in seconds including the fractional part,
`tv_sec % 86400 + tv_usec / 1e6` (line 162), with C truncated modulus. -/
def secondsOfDay (tv : Timeval) : ℚ :=
  ((Int.tmod tv.sec 86400 : Int) : ℚ) + (tv.usec : ℚ) / 1000000

/-- Lines 161-162: the slew correction
`1.0 - (double)(tick - slew_tick) / slew_tick * (sec % 86400 + usec / 1e6)`.
Note the numerator uses the stored plain tick reference `State.tick`, not
the tick observed in the current iteration. -/
def slewCorrection (s : State) (xtick : Int) (tv0 : Timeval) : ℚ :=
  1 - ((s.tick - slewBase s xtick : Int) : ℚ) / ((slewBase s xtick : Int) : ℚ)
      * secondsOfDay tv0

/-- Line 163: the slew ends when the correction is not positive or the
observed tick exceeds the midpoint `(tick + slew_tick) / 2` (C integer
division). -/
def slewExit (s : State) (xtick : Int) (tv0 : Timeval) : Bool :=
  decide (slewCorrection s xtick tv0 ≤ 0)
    || decide (Int.tdiv (s.tick + slewBase s xtick) 2 < xtick)

/-- Lines 158-175: the slew block.  While slewing, the base tick is
min-updated, the correction is computed, the exit condition may end the slew
(forcing the applied correction to 0), `tv_usec -= diff * 1e6` is applied
with C double-to-long truncation, and the borrow loop renormalizes.  While
not slewing, the plain tick reference is recorded. -/
def slewRun (s : State) (xtick : Int) (tv0 : Timeval) : State × Timeval :=
  if s.slew then
    if slewExit s xtick tv0 then
      ({ s with slew := false, slew_tick := 0 },
        borrow tv0.sec (ratTrunc ((tv0.usec : ℚ) - 0 * 1000000)))
    else
      ({ s with slew_tick := slewBase s xtick },
        borrow tv0.sec (ratTrunc ((tv0.usec : ℚ)
          - slewCorrection s xtick tv0 * 1000000)))
  else
    ({ s with tick := xtick }, tv0)

/-- The three instants assembled per iteration (lines 133, 154, 177-178) plus
the `leap` flag passed to the UTC/local renderings (lines 181, 183). -/
structure Outputs where
  tv_system : Timeval
  tv_utc : Timeval
  tv_tai : Timeval
  leapShown : Bool
deriving DecidableEq

/-- One iteration of the clock pipeline in `main` (lines 129-183), excluding
rendering: normalize the sample, classify the delta, recompute the TAI
offset if needed, record the sample, possibly engage and run the slew, and
assemble the system/UTC/TAI instants. -/
def stepIter (os : Int → Int) (s : State) (x : TimexSample) : State × Outputs :=
  let tv := sampleNormalize x
  let s1 := detectStep s tv
  let s2 := offsetUpdate os s1 tv
  let s3 := { s2 with last_tv_system := tv }
  let s4 := slewEngage s3 tv
  let sr := slewRun s4 x.tick tv
  (sr.1, ⟨tv, sr.2, ⟨sr.2.sec + sr.1.tai_offset, sr.2.usec⟩, sr.1.leap⟩)

/-- Iterating the loop body over a list of kernel samples, collecting the
per-iteration outputs. -/
def runIters (os : Int → Int) : State → List TimexSample → State × List Outputs
  | s, [] => (s, [])
  | s, x :: xs =>
    let r := stepIter os s x
    let rs := runIters os r.1 xs
    (rs.1, r.2 :: rs.2)

/-- The displayed UTC second, from `print_time` (lines 74-90): the displayed
whole second is `tv.sec`, and when the `leap` flag is set and the broken-down
second is 59 the displayed second is advanced by one for that frame
(lines 78-79), shown as the pair (whole second, leap bump). -/
def displayLabel (o : Outputs) : Int × Int :=
  (o.tv_utc.sec, if o.leapShown ∧ Int.tmod o.tv_utc.sec 60 = 59 then 1 else 0)

/-- One iteration's worth of external events for the whole loop: the value
`getch()` returned (`-1` is `ERR`, `410` is `KEY_RESIZE`) and the result of
the `adjtimex` query (`none` is failure). -/
structure IterInput where
  ch : Int
  clock : Option TimexSample
deriving DecidableEq

/-- The observable outcome of a terminating run of `main`'s loop: the exit
status, whether `endwin()` ran before the process exited, the final clock
state, and the outputs rendered along the way. -/
structure RunResult where
  exitCode : Int
  endwinCalled : Bool
  finalState : State
  shown : List Outputs
deriving DecidableEq

/-- The loop of `main` (lines 120-194): each iteration first polls input; the
loop continues only on `ERR` or `KEY_RESIZE` (line 120), a real key falls out
of the loop to `endwin()` (non-debug) and `return 0` (lines 191-194).  Inside
an iteration, a failed `adjtimex` returns 1 immediately, bypassing `endwin()`
(lines 130-131); a successful query runs the clock pipeline.  `none` means
the supplied event list ran out with the loop still running. -/
def runLoop (debug : Bool) (os : Int → Int) :
    State → List IterInput → Option RunResult
  | _, [] => none
  | s, i :: rest =>
    if i.ch = -1 ∨ i.ch = 410 then
      match i.clock with
      | none => some ⟨1, false, s, []⟩
      | some x =>
        (runLoop debug os (stepIter os s x).1 rest).map
          (fun r => { r with shown := (stepIter os s x).2 :: r.shown })
    else
      some ⟨0, !debug, s, []⟩

/-! ### Concrete scenario: an inserted leap second absorbed by the slew

A run of the loop across a UTC day boundary at epoch second 86400 where the
TAI offset goes from 37 to 38.  Before the boundary the kernel ticks at the
nominal 10000 us; from the boundary on, the kernel slews (tick 9000 us) and
its samples advance by 0.9 s per iteration, so the slewed display advances
by exactly one second per iteration through the transition. -/

/-- The offset oracle of the scenario: 37 before epoch second 86400 (second
0 of the new UTC day), 38 from there on. -/
def scenOracle (t : Int) : Int := if t < 86400 then 37 else 38

/-- The scenario's starting state: offsets recorded at 37, no leap pending,
no slew, previous sample half a second before the first one. -/
def scenInit : State :=
  { last_tv_system := ⟨86396, 500000⟩, tai_offset := 37, last_tai_offset := 37,
    leap := false, step := false, slew := false, tick := 0, slew_tick := 0 }

/-- A microsecond-unit kernel sample. -/
def mkSample (sec usec tick : Int) : TimexSample := ⟨⟨sec, usec⟩, false, tick⟩

/-- The scenario's kernel samples: one-second steps at nominal tick up to
the day boundary, then 0.9-second steps at the slewed tick 9000 until the
kernel has absorbed the inserted second. -/
def scenSamples : List TimexSample :=
  [mkSample 86397 0 10000, mkSample 86398 0 10000, mkSample 86399 0 10000,
   mkSample 86400 0 10000, mkSample 86400 900000 9000,
   mkSample 86401 800000 9000, mkSample 86402 700000 9000,
   mkSample 86403 600000 9000, mkSample 86404 500000 9000,
   mkSample 86405 400000 9000, mkSample 86406 300000 9000,
   mkSample 86407 200000 9000, mkSample 86408 100000 9000,
   mkSample 86409 0 9000, mkSample 86410 0 9000]

/-- The scenario run: final state and the per-iteration outputs. -/
def scenRun : State × List Outputs := runIters scenOracle scenInit scenSamples

/-- The successor of a displayed UTC second in the scenario's civil
timescale: after a plain second comes the next second, except that the
second at which the oracle's offset jumps is followed by its inserted leap
second (bump 1, displayed as :60), which is followed by the next plain
second. -/
def scenSucc (p : Int × Int) : Int × Int :=
  if p.2 = 1 then (p.1 + 1, 0)
  else if scenOracle p.1 < scenOracle (p.1 + 1) then (p.1, 1)
  else (p.1 + 1, 0)

/-- Every displayed second is followed by its civil successor: no second is
repeated and none is skipped. -/
def chainBy (f : Int × Int → Int × Int) : List (Int × Int) → Bool
  | [] => true
  | [_] => true
  | a :: b :: rest => decide (b = f a) && chainBy f (b :: rest)

/-- A state with an active slew and a previous sample at second 1000, used
to exercise the backward-step branch. -/
def slewActiveState : State :=
  { last_tv_system := ⟨1000, 0⟩, tai_offset := 37, last_tai_offset := 37,
    leap := false, step := false, slew := true, tick := 10000, slew_tick := 10000 }

/-- A state whose recorded offset is 37 and whose previous sample is at
second 100, used to exercise an ordinary recompute. -/
def leapWitState : State :=
  { last_tv_system := ⟨100, 0⟩, tai_offset := 37, last_tai_offset := 37,
    leap := false, step := false, slew := false, tick := 10000, slew_tick := 0 }

/-! ### Helper lemmas -/

theorem detectStep_tai_offset (s : State) (tv : Timeval) :
    (detectStep s tv).tai_offset = s.tai_offset := by
  unfold detectStep
  cases classify (diff_tv tv s.last_tv_system) <;> rfl

theorem detectStep_last_tai_offset (s : State) (tv : Timeval) :
    (detectStep s tv).last_tai_offset = s.last_tai_offset := by
  unfold detectStep
  cases classify (diff_tv tv s.last_tv_system) <;> rfl

theorem detectStep_last_tv_system (s : State) (tv : Timeval) :
    (detectStep s tv).last_tv_system = s.last_tv_system := by
  unfold detectStep
  cases classify (diff_tv tv s.last_tv_system) <;> rfl

theorem slewEngage_tai_offset (s : State) (tv : Timeval) :
    (slewEngage s tv).tai_offset = s.tai_offset := by
  unfold slewEngage; split <;> rfl

theorem slewRun_fst_tai_offset (s : State) (xtick : Int) (tv0 : Timeval) :
    (slewRun s xtick tv0).1.tai_offset = s.tai_offset := by
  unfold slewRun
  split
  · split <;> rfl
  · rfl

/-- The closed-form `borrow` satisfies the loop equation of lines 169-172:
one borrow iteration on a negative microsecond field. -/
theorem borrow_unfold (sec usec : Int) (h : usec < 0) :
    borrow sec usec = borrow (sec - 1) (usec + 1000000) := by
  unfold borrow
  rw [if_pos h]
  split
  · simp only [Timeval.mk.injEq]; omega
  · simp only [Timeval.mk.injEq]; omega

theorem borrow_usec_bounds (sec usec : Int) (h : usec < 1000000) :
    0 ≤ (borrow sec usec).usec ∧ (borrow sec usec).usec < 1000000 := by
  unfold borrow
  split
  · dsimp only; omega
  · dsimp only; omega

theorem ratTrunc_intCast (n : Int) : ratTrunc (n : ℚ) = n := by
  unfold ratTrunc
  rw [Rat.intCast_num, Rat.intCast_den]
  exact Int.tdiv_one n

theorem ratTrunc_nonpos_of_neg (q : ℚ) (h : q < 0) : ratTrunc q ≤ 0 := by
  unfold ratTrunc
  have hnum : q.num < 0 := Rat.num_neg.mpr h
  have hden : (0 : Int) ≤ (q.den : Int) := Int.natCast_nonneg q.den
  have : 0 ≤ (-q.num).tdiv (q.den : Int) :=
    Int.tdiv_nonneg (by omega) hden
  have hneg : (-q.num).tdiv (q.den : Int) = -(q.num.tdiv (q.den : Int)) :=
    Int.neg_tdiv q.num (q.den : Int)
  omega

theorem ratTrunc_le_intCast (q : ℚ) (u : Int) (hu : 0 ≤ u) (h : q ≤ (u : ℚ)) :
    ratTrunc q ≤ u := by
  rcases le_or_lt 0 q with h0 | h0
  · have hnum : 0 ≤ q.num := Rat.num_nonneg.mpr h0
    have heq : ratTrunc q = ⌊q⌋ := by
      unfold ratTrunc
      rw [Int.tdiv_eq_ediv hnum (Int.natCast_nonneg q.den)]
      exact Rat.floor_def.symm
    rw [heq]
    calc ⌊q⌋ ≤ ⌊(u : ℚ)⌋ := Int.floor_le_floor h
      _ = u := Int.floor_intCast u
  · exact le_trans (ratTrunc_nonpos_of_neg q h0) hu

theorem classify_eq_backward_iff (d : ℚ) :
    classify d = StepClass.BACKWARD_STEP ↔ (-1 < d ∧ d < -(4/5)) := by
  unfold classify
  split_ifs with h1 h2
  · simp only [eq_self_iff_true, true_iff]; exact h1
  · constructor
    · intro h; cases h
    · intro h; exact absurd h h1
  · constructor
    · intro h; cases h
    · intro h; exact absurd h h1

theorem classify_eq_discontinuity_iff (d : ℚ) :
    classify d = StepClass.DISCONTINUITY ↔ (1 < d ∨ d < -1) := by
  unfold classify
  split_ifs with h1 h2
  · constructor
    · intro h; cases h
    · rintro (h | h) <;> rcases h1 with ⟨ha, hb⟩
      · exact absurd (lt_trans hb (by norm_num)) (not_lt.mpr (le_of_lt h))
      · exact absurd h (not_lt.mpr (le_of_lt ha))
  · simp only [eq_self_iff_true, true_iff]; exact h2
  · constructor
    · intro h; cases h
    · intro h; exact absurd h h2

theorem classify_eq_normal_iff (d : ℚ) :
    classify d = StepClass.NORMAL
      ↔ (¬(-1 < d ∧ d < -(4/5)) ∧ ¬(1 < d ∨ d < -1)) := by
  unfold classify
  split_ifs with h1 h2
  · constructor
    · intro h; cases h
    · intro h; exact absurd h1 h.1
  · constructor
    · intro h; cases h
    · intro h; exact absurd h2 h.2
  · simp only [eq_self_iff_true, true_iff]; exact ⟨h1, h2⟩

/-! ### Claim theorems -/

/-- C1: for every iteration, the TAI offset after the iteration equals —
exactly when a backward step is pending after classification or the whole
second of the (normalized) sample changed — the epoch seconds obtained by
interpreting the probed instant under the leap-second-free calendar rule
and reinterpreting that calendar time under the leap-second-aware rule,
minus the probed instant, plus 10; the probed instant is the sampled
second plus one exactly when a backward step is pending; in all other
iterations the offset is left unchanged. -/
theorem tai_offset_formula_and_recompute (g : Int → Tm) (m : Tm → Int)
    (s : State) (x : TimexSample) :
    (stepIter (get_tai_offset g m) s x).1.tai_offset
      = if (detectStep s (sampleNormalize x)).step
            ∨ s.last_tv_system.sec ≠ (sampleNormalize x).sec then
          m (g ((sampleNormalize x).sec
              + (if (detectStep s (sampleNormalize x)).step then 1 else 0)))
            - ((sampleNormalize x).sec
              + (if (detectStep s (sampleNormalize x)).step then 1 else 0)) + 10
        else s.tai_offset := by
  have h1 : (stepIter (get_tai_offset g m) s x).1.tai_offset
      = (offsetUpdate (get_tai_offset g m) (detectStep s (sampleNormalize x))
          (sampleNormalize x)).tai_offset := by
    simp only [stepIter, slewRun_fst_tai_offset, slewEngage_tai_offset]
  rw [h1]
  unfold offsetUpdate
  rw [detectStep_last_tv_system]
  split
  · rfl
  · exact detectStep_tai_offset s (sampleNormalize x)

/-- C2 (amended): in every iteration that recomputes the offset, the leap
flag is set true exactly when the previously recorded offset is nonzero AND
the newly computed offset exceeds it; in particular the very first
recompute after startup, with the recorded offset still 0, always sets the
flag false. -/
theorem leap_flag_on_recompute (os : Int → Int) (s : State) (tv : Timeval)
    (h : s.step ∨ s.last_tv_system.sec ≠ tv.sec) :
    (offsetUpdate os s tv).leap
      = decide (s.last_tai_offset ≠ 0
          ∧ s.last_tai_offset < os (tv.sec + (if s.step then 1 else 0))) := by
  unfold offsetUpdate
  rw [if_pos h]

/-- C2 witness: a concrete recompute (previous offset 37, new offset 37)
evaluated through the amended rule. -/
theorem leap_flag_on_recompute_witness :
    (offsetUpdate (fun _ => 37) leapWitState ⟨200, 0⟩).leap
      = decide (leapWitState.last_tai_offset ≠ 0
          ∧ leapWitState.last_tai_offset
              < (fun _ => (37 : Int)) (200 + (if leapWitState.step then 1 else 0))) :=
  leap_flag_on_recompute (fun _ => 37) leapWitState ⟨200, 0⟩ (by decide)

/-- C2 counterexample: on the very first recompute after startup the
computed offset 37 exceeds the recorded `last_tai_offset = 0`, yet the leap
flag is set false (the code guards with `last_tai_offset &&`), refuting the
claim that the flag is true exactly when the new offset exceeds the
recorded one even on the first recompute. -/
theorem leap_first_recompute_counterexample :
    (stepIter (fun _ => 37) initState ⟨⟨100, 0⟩, false, 10000⟩).1.tai_offset = 37
    ∧ initState.last_tai_offset = 0
    ∧ (stepIter (fun _ => 37) initState ⟨⟨100, 0⟩, false, 10000⟩).1.leap = false := by
  decide

/-- C3 (amended): a delta classified BACKWARD_STEP sets the pending-step
flag and CLEARS the slew flag (the code runs `step = 1, slew = 0`); the
leap flag and the offsets are unchanged. -/
theorem backward_step_sets_pending_clears_slew (s : State) (tv : Timeval)
    (h : classify (diff_tv tv s.last_tv_system) = StepClass.BACKWARD_STEP) :
    (detectStep s tv).step = true ∧ (detectStep s tv).slew = false
    ∧ (detectStep s tv).leap = s.leap
    ∧ (detectStep s tv).tai_offset = s.tai_offset := by
  unfold detectStep
  rw [h]
  exact ⟨rfl, rfl, rfl, rfl⟩

/-- C3 witness: a concrete backward step (delta -0.9) from a state with an
active slew. -/
theorem backward_step_sets_pending_clears_slew_witness :
    (detectStep slewActiveState ⟨999, 100000⟩).step = true
    ∧ (detectStep slewActiveState ⟨999, 100000⟩).slew = false
    ∧ (detectStep slewActiveState ⟨999, 100000⟩).leap = slewActiveState.leap
    ∧ (detectStep slewActiveState ⟨999, 100000⟩).tai_offset
        = slewActiveState.tai_offset :=
  backward_step_sets_pending_clears_slew slewActiveState ⟨999, 100000⟩ (by decide)

/-- C3 counterexample: with the slew active, a backward-step delta (-0.9)
leaves the slew flag false afterwards, refuting the claim that `slewActive`
is unchanged by a BACKWARD_STEP classification. -/
theorem backward_step_slew_counterexample :
    classify (diff_tv ⟨999, 100000⟩ slewActiveState.last_tv_system)
        = StepClass.BACKWARD_STEP
    ∧ slewActiveState.slew = true
    ∧ (detectStep slewActiveState ⟨999, 100000⟩).slew = false := by
  decide

/-- C4 (amended): the delta between consecutive samples classifies as
BACKWARD_STEP exactly on the OPEN interval (-1, -0.8) — the boundary -0.8
itself is NORMAL — as DISCONTINUITY exactly when above 1 or below -1, and
as NORMAL otherwise; the concrete deltas -0.9, +1.5, -1.5 and 0.05 classify
as backward step, discontinuity, discontinuity and normal respectively. -/
theorem classify_intervals (tv1 tv2 : Timeval) :
    (classify (diff_tv tv1 tv2) = StepClass.BACKWARD_STEP
        ↔ (-1 < diff_tv tv1 tv2 ∧ diff_tv tv1 tv2 < -(4/5)))
    ∧ (classify (diff_tv tv1 tv2) = StepClass.DISCONTINUITY
        ↔ (1 < diff_tv tv1 tv2 ∨ diff_tv tv1 tv2 < -1))
    ∧ (classify (diff_tv tv1 tv2) = StepClass.NORMAL
        ↔ (¬(-1 < diff_tv tv1 tv2 ∧ diff_tv tv1 tv2 < -(4/5))
            ∧ ¬(1 < diff_tv tv1 tv2 ∨ diff_tv tv1 tv2 < -1)))
    ∧ classify (diff_tv ⟨0, 100000⟩ ⟨1, 0⟩) = StepClass.BACKWARD_STEP
    ∧ classify (diff_tv ⟨1, 500000⟩ ⟨0, 0⟩) = StepClass.DISCONTINUITY
    ∧ classify (diff_tv ⟨0, 0⟩ ⟨1, 500000⟩) = StepClass.DISCONTINUITY
    ∧ classify (diff_tv ⟨0, 50000⟩ ⟨0, 0⟩) = StepClass.NORMAL := by
  refine ⟨classify_eq_backward_iff _, classify_eq_discontinuity_iff _,
    classify_eq_normal_iff _, by decide, by decide, by decide, by decide⟩

/-- Modelled from the spec's words, for comparison with the code (claim C5):
a correction computed from the CURRENT iteration's kernel tick instead of
the stored plain-tick reference. -/
def specCorrection (currentTick slewBaseTick : Int) (sod : ℚ) : ℚ :=
  1 - ((currentTick - slewBaseTick : Int) : ℚ) / ((slewBaseTick : Int) : ℚ) * sod

/-- A slewing state whose stored plain-tick reference (10020) differs from
the tick observed in the current iteration (10010). -/
def cexSlewState : State :=
  { last_tv_system := ⟨100, 0⟩, tai_offset := 38, last_tai_offset := 38,
    leap := false, step := false, slew := true, tick := 10020, slew_tick := 10000 }

/-- A slewing state for the C5 witness: reference tick 10000, base 9000. -/
def slewState5 : State :=
  { last_tv_system := ⟨86401, 0⟩, tai_offset := 38, last_tai_offset := 38,
    leap := false, step := false, slew := true, tick := 10000, slew_tick := 9000 }

/-- C5 (amended): in every slewing iteration that does not yet end the slew,
the correction equals `1 - ((referenceTick - slewBaseTick) / slewBaseTick) *
secondsOfDayWithFraction`, where `referenceTick` is the plain tick length
recorded in the last non-slewing iteration (`State.tick`) — NOT the tick
observed in the current iteration — and `slewBaseTick` is the smallest tick
observed since the slew armed; the displayed UTC microseconds are the
sampled ones minus the truncation of correction times 1e6, renormalized by
the borrow loop. -/
theorem slew_correction_reference_tick (s : State) (xtick : Int) (tv0 : Timeval)
    (hs : s.slew = true) (hc : slewExit s xtick tv0 = false) :
    slewCorrection s xtick tv0
        = 1 - ((s.tick - slewBase s xtick : Int) : ℚ)
            / ((slewBase s xtick : Int) : ℚ) * secondsOfDay tv0
    ∧ (slewRun s xtick tv0).2
        = borrow tv0.sec (ratTrunc ((tv0.usec : ℚ)
            - slewCorrection s xtick tv0 * 1000000))
    ∧ (slewRun s xtick tv0).1.slew_tick = slewBase s xtick := by
  unfold slewRun
  rw [if_pos hs, if_neg (by simp [hc])]
  exact ⟨rfl, rfl, rfl⟩

/-- C5 witness: a concrete slewing iteration (reference tick 10000, base
9000, observed tick 9000, seconds-of-day 1.8) evaluated through the amended
formula. -/
theorem slew_correction_reference_tick_witness :
    slewCorrection slewState5 9000 ⟨86401, 800000⟩
        = 1 - ((slewState5.tick - slewBase slewState5 9000 : Int) : ℚ)
            / ((slewBase slewState5 9000 : Int) : ℚ) * secondsOfDay ⟨86401, 800000⟩
    ∧ (slewRun slewState5 9000 ⟨86401, 800000⟩).2
        = borrow (86401 : Int) (ratTrunc (((800000 : Int) : ℚ)
            - slewCorrection slewState5 9000 ⟨86401, 800000⟩ * 1000000))
    ∧ (slewRun slewState5 9000 ⟨86401, 800000⟩).1.slew_tick
        = slewBase slewState5 9000 :=
  slew_correction_reference_tick slewState5 9000 ⟨86401, 800000⟩ rfl (by decide)

/-- C5 counterexample: with reference tick 10020, base 10000, and current
observed tick 10010, the code subtracts the correction built from the
REFERENCE tick (yielding microseconds 200000 after the borrow), while the
claimed formula built from the current iteration's tick would yield 100000;
so the claim's reading of `currentTick` is refuted. -/
theorem slew_current_tick_counterexample :
    (slewRun cexSlewState 10010 ⟨100, 0⟩).2 = ⟨99, 200000⟩
    ∧ borrow (100 : Int) (ratTrunc (((0 : Int) : ℚ)
        - specCorrection 10010 (slewBase cexSlewState 10010)
            (secondsOfDay ⟨100, 0⟩) * 1000000))
      = ⟨99, 100000⟩
    ∧ (slewRun cexSlewState 10010 ⟨100, 0⟩).2
        ≠ borrow (100 : Int) (ratTrunc (((0 : Int) : ℚ)
            - specCorrection 10010 (slewBase cexSlewState 10010)
                (secondsOfDay ⟨100, 0⟩) * 1000000)) := by
  decide

set_option maxRecDepth 10000 in
/-- C6: in the end-to-end leap scenario — starting from offsets 37/37 with
no leap pending, the oracle returning 38 from second 0 of the new UTC day
on, so that the leap flag is raised and the slew engages at the day
boundary — the displayed UTC seconds (whole second plus leap bump, the :60
display) advance by exactly one civil second per displayed change, with the
inserted leap second :60 shown exactly once, nothing repeated and nothing
skipped, and the run ends with the slew disengaged and the offset at 38. -/
theorem leap_scenario_display :
    scenRun.2.map displayLabel
      = [(86397, 0), (86398, 0), (86399, 0), (86399, 1), (86400, 0), (86401, 0),
         (86402, 0), (86403, 0), (86404, 0), (86405, 0), (86406, 0), (86407, 0),
         (86408, 0), (86409, 0), (86410, 0)]
    ∧ chainBy scenSucc (scenRun.2.map displayLabel) = true
    ∧ scenRun.1.slew = false ∧ scenRun.1.tai_offset = 38 := by
  decide

/-- C7: in every iteration, the TAI instant's whole seconds equal the UTC
instant's whole seconds plus the (post-recompute) TAI offset, and the
microsecond fields agree exactly. -/
theorem tai_tracks_utc_offset (os : Int → Int) (s : State) (x : TimexSample) :
    (stepIter os s x).2.tv_tai.sec
        = (stepIter os s x).2.tv_utc.sec + (stepIter os s x).1.tai_offset
    ∧ (stepIter os s x).2.tv_tai.usec = (stepIter os s x).2.tv_utc.usec :=
  ⟨rfl, rfl⟩

/-- C8: in every slewing iteration, if the sampled microsecond field is
normalized in [0, 1000000), then after subtracting the correction and
running the borrow loop the displayed UTC microseconds are again in
[0, 1000000). -/
theorem slew_usec_normalized (s : State) (xtick : Int) (tv0 : Timeval)
    (hs : s.slew = true) (h0 : 0 ≤ tv0.usec) (h1 : tv0.usec < 1000000) :
    0 ≤ (slewRun s xtick tv0).2.usec
    ∧ (slewRun s xtick tv0).2.usec < 1000000 := by
  unfold slewRun
  rw [if_pos hs]
  split
  · have h : ratTrunc ((tv0.usec : ℚ) - 0 * 1000000) = tv0.usec := by
      rw [zero_mul, sub_zero, ratTrunc_intCast]
    rw [h]
    exact borrow_usec_bounds tv0.sec tv0.usec h1
  · rename_i hx
    have hcorr : 0 < slewCorrection s xtick tv0 := by
      by_contra hle
      exact hx (by simp [slewExit, le_of_not_lt hle])
    have hle : ratTrunc ((tv0.usec : ℚ)
        - slewCorrection s xtick tv0 * 1000000) ≤ tv0.usec := by
      apply ratTrunc_le_intCast _ _ h0
      have hmul : (0 : ℚ) ≤ slewCorrection s xtick tv0 * 1000000 := by positivity
      linarith
    exact borrow_usec_bounds _ _ (lt_of_le_of_lt hle h1)

/-- A slewing state for the C8 witness. -/
def slewState8 : State :=
  { last_tv_system := ⟨86400, 0⟩, tai_offset := 38, last_tai_offset := 38,
    leap := true, step := false, slew := true, tick := 10000, slew_tick := 10000 }

/-- C8 witness: a concrete slewing iteration with sampled microseconds
900000 stays normalized. -/
theorem slew_usec_normalized_witness :
    0 ≤ (slewRun slewState8 9000 ⟨86400, 900000⟩).2.usec
    ∧ (slewRun slewState8 9000 ⟨86400, 900000⟩).2.usec < 1000000 :=
  slew_usec_normalized slewState8 9000 ⟨86400, 900000⟩ rfl (by decide) (by decide)

/-- C9 (amended): when the poll keeps the loop running (ERR or KEY_RESIZE)
and the `adjtimex` query fails, the run terminates immediately with exit
status 1, consuming no further iterations (no retry), rendering nothing
more, and WITHOUT releasing the full-screen display (`return 1` bypasses
`endwin()`). -/
theorem adjtimex_failure_fatal (debug : Bool) (os : Int → Int) (s : State)
    (ch : Int) (rest : List IterInput) (h : ch = -1 ∨ ch = 410) :
    runLoop debug os s (⟨ch, none⟩ :: rest) = some ⟨1, false, s, []⟩ := by
  simp only [runLoop]
  rw [if_pos h]

/-- C9 witness: a failing query in non-debug mode with one more queued
iteration; the run exits 1 at once, the queued iteration unconsumed and
`endwin` not called. -/
theorem adjtimex_failure_fatal_witness :
    runLoop false (fun _ => 37) initState
        [⟨-1, none⟩, ⟨-1, some ⟨⟨0, 0⟩, false, 10000⟩⟩]
      = some ⟨1, false, initState, []⟩ :=
  adjtimex_failure_fatal false (fun _ => 37) initState (-1)
    [⟨-1, some ⟨⟨0, 0⟩, false, 10000⟩⟩] (Or.inl rfl)

/-- C9 counterexample: on the fatal path in full-screen (non-debug) mode
the display is NOT released before the process exits — `endwinCalled` is
false — refuting the claim that display resources are released on that
path. -/
theorem adjtimex_failure_endwin_counterexample :
    (runLoop false (fun _ => 37) initState [⟨-1, none⟩]).map RunResult.endwinCalled
      = some false := by
  decide

/-- C10: the loop keeps iterating exactly while the poll returns ERR (-1)
or KEY_RESIZE (410): any other returned key ends the run at the top of the
iteration — exit status 0, the state untouched and nothing rendered in that
iteration, the full-screen display torn down exactly in non-debug mode —
while a loop-continuing poll with a successful clock query runs the clock
pipeline and recurses. -/
theorem keypress_ends_loop (debug : Bool) (os : Int → Int) (s : State)
    (ch : Int) (clk : Option TimexSample) (x : TimexSample)
    (rest : List IterInput) :
    (¬(ch = -1 ∨ ch = 410) →
        runLoop debug os s (⟨ch, clk⟩ :: rest) = some ⟨0, !debug, s, []⟩)
    ∧ ((ch = -1 ∨ ch = 410) →
        runLoop debug os s (⟨ch, some x⟩ :: rest)
          = (runLoop debug os (stepIter os s x).1 rest).map
              (fun r => { r with shown := (stepIter os s x).2 :: r.shown })) := by
  constructor
  · intro h
    simp only [runLoop]
    rw [if_neg h]
  · intro h
    simp only [runLoop]
    rw [if_pos h]

/-- C10 witness: a keypress (character 113) in non-debug mode ends the run
with exit status 0, teardown performed, state unconsumed. -/
theorem keypress_ends_loop_witness :
    runLoop false (fun _ => 37) initState [⟨113, none⟩]
      = some ⟨0, true, initState, []⟩ :=
  (keypress_ends_loop false (fun _ => 37) initState 113 none
    ⟨⟨0, 0⟩, false, 10000⟩ []).1 (by decide)

/-- C4 counterexample: a delta of exactly -0.8 classifies NORMAL, not
BACKWARD_STEP — the code's condition `diff < -0.8` is strict, so the
claimed half-open interval (-1.0, -0.8] is wrong at its right endpoint. -/
theorem classify_boundary_counterexample :
    diff_tv ⟨0, 0⟩ ⟨0, 800000⟩ = -(4/5)
    ∧ classify (diff_tv ⟨0, 0⟩ ⟨0, 800000⟩) = StepClass.NORMAL := by
  decide

end Leapclock
